import Mathlib

/-!
Verification of the conversation-session synchronization engine of
`src/frontend/src/components/ChatArea.jsx` (functions `handleSendMessage` and
`handleSubmitEdit`), shallowly embedded as pure state-transition functions.

The React component state that the handlers read and write is gathered in
`ChatState`; the session store owned by `SessionContext` (not part of the
given sources) is modelled from the specification, and each such definition
is marked `Modelled from the spec:` in its doc comment.  The backend
collaborator (`apiService`) and the streaming simulator (`mockApiService`)
are external per the specification; they enter as an oracle (`Api`) giving
the outcome of each call and as an explicit list of stream events.  Each
handler additionally returns the list of backend calls it issued, so that
claims about how often `createThread` / `createMessage` are called can be
stated directly.
-/

/-- One entry of a message's append-only edit history
(field names follow the JSX objects built at lines 128-134 and 261-267). -/
structure Edit where
  edit_id : String
  model_name : String
  timestamp : String
  question : String
  answer : String
deriving Repr, DecidableEq

/-- A chat message.  `edits = some _` is the edit-branching variant
(`lastMessage.edits` truthy in the JSX: a JS array, even empty, is truthy);
the legacy scalar variant carries `question` / `answer` / `model_name`
directly.  JS truthiness of `lastMessage.question` is: field present and not
the empty string. -/
structure Message where
  id : String
  edits : Option (List Edit) := none
  question : Option String := none
  answer : Option String := none
  model_name : Option String := none
deriving Repr, DecidableEq

/-- A session / thread as held by the session store. -/
structure Session where
  id : String
  isTemporary : Bool
  modelName : String
  messages : List Message
deriving Repr, DecidableEq

/-- The component state of `ChatArea` that the two handlers touch. -/
structure ChatState where
  store : Session
  isLoading : Bool
  streamingMessage : String
  selectedModel : String
  apiMode : Bool
  editingMessageId : Option String
  editingMessageText : String
deriving Repr, DecidableEq

/-- Opaque conversation DTO returned by `apiService.getConversation`; the
engine never inspects it, only feeds it to `transformConversation`. -/
structure ConvDTO where
  raw : Nat
deriving Repr, DecidableEq

/-- Oracle for the external backend collaborator: the outcome each
`apiService` call would have during one exchange, plus the pure
`transformConversation` mapping. -/
structure Api where
  createThreadRes : Except Unit String
  createMessageRes : Except Unit Unit
  createMessageEditRes : Except Unit Unit
  getConversationRes : Except Unit ConvDTO
  transformConversation : ConvDTO → List Message

/-- Trace entry: one call issued to `apiService` (arguments as passed). -/
inductive ApiCall where
  | createThread
  | createMessage (threadId question answer modelName : String)
  | createMessageEdit (messageId question answer modelName : String)
  | getConversation (threadId : String)
deriving Repr, DecidableEq

/-- Terminal event of one simulated streaming exchange: the simulator fires
`onComplete` with the full text, or `onError`. -/
inductive StreamOutcome where
  | complete (fullText : String)
  | errored
deriving Repr, DecidableEq

/-- The user message appended by `addMessage(message, true, null)`.
Modelled from the spec: a send appends a new legacy-variant Message with an
empty answer representing the question (spec section 4.4); the local id is a
fabricated placeholder. -/
def localUserMessage (text : String) : Message :=
  { id := "local", question := some text, answer := some "" }

/-- The assistant message appended by `addMessage(text, false, model)`.
Modelled from the spec: the fallback answer is inserted "as though it were a
normal (failed) response" (spec section 4.4), i.e. a legacy-variant Message
carrying the answer text. -/
def localAssistantMessage (text : String) (modelName : Option String) : Message :=
  { id := "local", question := some "", answer := some text, model_name := modelName }

/-- Modelled from the spec: `addMessage` of `SessionContext` (not under
src/) is the SessionStore `appendMessage` of spec section 4.1 — it appends
one message to the thread's message list, preserving order. -/
def addMessage (s : Session) (text : String) (isUser : Bool)
    (modelName : Option String) : Session :=
  { s with messages := s.messages ++
      [if isUser then localUserMessage text else localAssistantMessage text modelName] }

/-- Modelled from the spec: `convertTemporarySession` of `SessionContext`
(not under src/) is the SessionStore `ensurePersisted` of spec section 4.1 —
if the thread is temporary it replaces the id with the backend-assigned one
and clears the temporary flag; on an already-persisted thread it is a no-op. -/
def convertTemporarySession (s : Session) (oldId newThreadId : String) : Session :=
  if s.id = oldId ∧ s.isTemporary then
    { s with id := newThreadId, isTemporary := false }
  else s

/-- Modelled from the spec: `updateSessionModel` of `SessionContext` (not
under src/) combines the SessionStore `replaceMessages` (wholesale
replacement of the message list of the identified thread) and `setModel` of
spec section 4.1. -/
def updateSessionModel (s : Session) (threadId modelName : String)
    (msgs : List Message) : Session :=
  if s.id = threadId then { s with modelName := modelName, messages := msgs } else s

/-- JS `String.prototype.trim` as used in the guards `!message.trim()` and
`!updatedMessage.trim()`: removes leading and trailing whitespace.  (Lean's
own `String.trim` is not kernel-reducible; this char-list version is.) -/
def jsTrim (s : String) : String :=
  ⟨((s.data.dropWhile Char.isWhitespace).reverse.dropWhile Char.isWhitespace).reverse⟩

/-- The fixed fallback answer (lines 102 and 168 of the JSX). -/
def fallbackText : String :=
  "I\x27m sorry, I encountered an error processing your request."

/-- The simulated response of line 70. -/
def simulatedResponse (message selectedModel : String) : String :=
  "This is a response to: \"" ++ message ++
    "\". In a real implementation, this would be generated by an LLM model (" ++
    selectedModel ++ ")."

/-- The simulated response of line 235 for an edited question. -/
def editedResponse (updatedMessage selectedModel : String) : String :=
  "This is a response to the edited question: \"" ++ updatedMessage ++
    "\". Generated by " ++ selectedModel ++ "."

/-- Copy-on-write edit append `{...m, edits: [...m.edits, e]}` built at
lines 126-135 and 273-276 of the JSX (both code sites reach it only with
`edits` present). -/
def appendEditToMessage (m : Message) (e : Edit) : Message :=
  { m with edits := some (m.edits.getD [] ++ [e]) }

/-- Pointwise update `l[i] = f l[i]` on a copy of the list — the
`updatedMessages[i] = {...updatedMessages[i], ...}` pattern of the JSX. -/
def modifyIdx (f : Message → Message) : Nat → List Message → List Message
  | _, [] => []
  | 0, m :: rest => f m :: rest
  | n + 1, m :: rest => m :: modifyIdx f n rest

/-- The chunk callback of lines 113-115, applied to a whole emission
sequence: each chunk is concatenated onto `streamingMessage`. -/
def runChunks (st : ChatState) (chunks : List String) : ChatState :=
  chunks.foldl (fun s c => { s with streamingMessage := s.streamingMessage ++ c }) st

/-- Handler `onComplete` of lines 117-164.  `cs` is the `currentSession`
captured by the callback's closure; `ts` stands for the
`new Date().toISOString()` timestamp. -/
def mockComplete (cs : Session) (st : ChatState) (message fullResponse ts : String) :
    ChatState :=
  let st1 :=
    match cs.messages.getLast? with
    | none =>
        { st with store := addMessage st.store fullResponse false (some st.selectedModel) }
    | some lastMessage =>
        match lastMessage.edits with
        | some edits =>
            let newEdit : Edit :=
              { edit_id := "mock_edit_" ++ toString (edits.length + 1)
                model_name := st.selectedModel
                timestamp := ts
                question := message
                answer := fullResponse }
            let updatedMessages :=
              modifyIdx (fun m => appendEditToMessage m newEdit)
                (cs.messages.length - 1) cs.messages
            { st with store := updateSessionModel st.store cs.id st.selectedModel updatedMessages }
        | none =>
            if lastMessage.question.getD "" ≠ "" then
              let updatedMessages :=
                modifyIdx
                  (fun m => { m with answer := some fullResponse
                                     model_name := some st.selectedModel })
                  (cs.messages.length - 1) cs.messages
              { st with store := updateSessionModel st.store cs.id st.selectedModel updatedMessages }
            else
              { st with store := addMessage st.store fullResponse false (some st.selectedModel) }
  { st1 with isLoading := false, streamingMessage := "" }

/-- Backend-mode body after the thread id is settled: `createMessage`, then
`getConversation` / `transformConversation` / `updateSessionModel`
(lines 83-99).  The returned Bool is false when an awaited call threw. -/
def backendAfterThread (api : Api) (threadId : String) (store : Session)
    (message selectedModel : String) (calls : List ApiCall) :
    Session × List ApiCall × Bool :=
  let resp := simulatedResponse message selectedModel
  let calls := calls ++ [ApiCall.createMessage threadId message resp selectedModel]
  match api.createMessageRes with
  | .error _ => (store, calls, false)
  | .ok _ =>
      let calls := calls ++ [ApiCall.getConversation threadId]
      match api.getConversationRes with
      | .error _ => (store, calls, false)
      | .ok conv =>
          (updateSessionModel store threadId selectedModel
            (api.transformConversation conv), calls, true)

/-- The try-block of backend mode (lines 68-97): create the thread first when
the session is temporary, then proceed.  `cs` is the closure's
`currentSession`. -/
def backendAttempt (api : Api) (cs : Session) (store : Session)
    (message selectedModel : String) : Session × List ApiCall × Bool :=
  if cs.isTemporary then
    match api.createThreadRes with
    | .error _ => (store, [ApiCall.createThread], false)
    | .ok newTid =>
        backendAfterThread api newTid (convertTemporarySession store cs.id newTid)
          message selectedModel [ApiCall.createThread]
  else
    backendAfterThread api cs.id store message selectedModel []

/-- Function `handleSendMessage` (lines 56-176).  In mock mode the simulator's
behaviour is given by `chunks` (the `onChunk` emissions, in order) and
`outcome`; `ts` stands for the timestamp.  Also returns the trace of
`apiService` calls issued. -/
def handleSendMessage (api : Api) (st : ChatState) (message : String)
    (chunks : List String) (outcome : StreamOutcome) (ts : String) :
    ChatState × List ApiCall :=
  if jsTrim message = "" ∨ st.isLoading then (st, [])
  else
    let cs := st.store
    let st1 : ChatState :=
      { st with store := addMessage st.store message true none
                isLoading := true
                streamingMessage := "" }
    if st.apiMode then
      match backendAttempt api cs st1.store message st.selectedModel with
      | (store2, calls, true) =>
          ({ st1 with store := store2, isLoading := false, streamingMessage := "" }, calls)
      | (store2, calls, false) =>
          ({ st1 with
              store := addMessage store2 fallbackText false (some st.selectedModel)
              isLoading := false
              streamingMessage := "" }, calls)
    else
      let st2 := runChunks st1 chunks
      match outcome with
      | .complete full => (mockComplete cs st2 message full ts, [])
      | .errored =>
          ({ st2 with
              store := addMessage st2.store fallbackText false (some st.selectedModel)
              isLoading := false
              streamingMessage := "" }, [])

/-- Function `handleSubmitEdit` (lines 220-304).  Returns the new state and the trace
of `apiService` calls. -/
def handleSubmitEdit (api : Api) (st : ChatState) (updatedMessage : String)
    (ts : String) : ChatState × List ApiCall :=
  match st.editingMessageId with
  | none => (st, [])
  | some editingId =>
    if jsTrim updatedMessage = "" then (st, [])
    else
      match st.store.messages.find? (fun m => m.id == editingId) with
      | none => (st, [])
      | some messageToEdit =>
        let st1 : ChatState := { st with isLoading := true }
        if st.apiMode then
          match messageToEdit.edits with
          | some _ =>
              let resp := editedResponse updatedMessage st.selectedModel
              let calls :=
                [ApiCall.createMessageEdit messageToEdit.id updatedMessage resp
                  st.selectedModel]
              match api.createMessageEditRes with
              | .error _ => ({ st1 with isLoading := false }, calls)
              | .ok _ =>
                  let calls := calls ++ [ApiCall.getConversation st.store.id]
                  match api.getConversationRes with
                  | .error _ => ({ st1 with isLoading := false }, calls)
                  | .ok conv =>
                      ({ st1 with
                          store := updateSessionModel st1.store st.store.id
                            st.selectedModel (api.transformConversation conv)
                          editingMessageId := none
                          editingMessageText := ""
                          isLoading := false }, calls)
          | none =>
              ({ st1 with
                  editingMessageId := none
                  editingMessageText := ""
                  isLoading := false }, [])
        else
          match messageToEdit.edits with
          | some edits =>
              match edits.getLast? with
              | none =>
                  ({ st1 with isLoading := false }, [])
              | some latestEdit =>
                  let newEdit : Edit :=
                    { edit_id := "mock_edit_" ++ toString (edits.length + 1)
                      model_name := st.selectedModel
                      timestamp := ts
                      question := updatedMessage
                      answer := latestEdit.answer }
                  match st.store.messages.findIdx? (fun m => m.id == editingId) with
                  | none =>
                      ({ st1 with
                          editingMessageId := none
                          editingMessageText := ""
                          isLoading := false }, [])
                  | some messageIndex =>
                      let updatedMessages :=
                        modifyIdx (fun m => appendEditToMessage m newEdit)
                          messageIndex st.store.messages
                      ({ st1 with
                          store := updateSessionModel st1.store st.store.id
                            st.selectedModel updatedMessages
                          editingMessageId := none
                          editingMessageText := ""
                          isLoading := false }, [])
          | none =>
              match st.store.messages.findIdx? (fun m => m.id == editingId) with
              | none =>
                  ({ st1 with
                      editingMessageId := none
                      editingMessageText := ""
                      isLoading := false }, [])
              | some messageIndex =>
                  let updatedMessages :=
                    modifyIdx (fun m => { m with question := some updatedMessage })
                      messageIndex st.store.messages
                  ({ st1 with
                      store := updateSessionModel st1.store st.store.id
                        st.selectedModel updatedMessages
                      editingMessageId := none
                      editingMessageText := ""
                      isLoading := false }, [])

/-! ### Sample data used by witnesses and counterexamples -/

/-- Backend oracle on which every call succeeds. -/
def sampleApiOk : Api :=
  { createThreadRes := .ok "backend_tid_1"
    createMessageRes := .ok ()
    createMessageEditRes := .ok ()
    getConversationRes := .ok ⟨0⟩
    transformConversation := fun _ =>
      [{ id := "srv_m1", question := some "Hi", answer := some "served" }] }

/-- Backend oracle on which every call fails. -/
def sampleApiDown : Api :=
  { createThreadRes := .error ()
    createMessageRes := .error ()
    createMessageEditRes := .error ()
    getConversationRes := .error ()
    transformConversation := fun _ => [] }

def sampleBranchEdit : Edit :=
  { edit_id := "e1", model_name := "m0", timestamp := "t0"
    question := "What is 2+2?", answer := "4" }

def sampleBranchMessage : Message :=
  { id := "msg_1", edits := some [sampleBranchEdit] }

def sampleLegacyMessage : Message :=
  { id := "msg_2", question := some "What is 2+2?", answer := some "4"
    model_name := some "m0" }

def sampleTempSession : Session :=
  { id := "temp_1", isTemporary := true, modelName := "m0", messages := [] }

def samplePersistedSession : Session :=
  { id := "tid_9", isTemporary := false, modelName := "m0"
    messages := [sampleBranchMessage, sampleLegacyMessage] }

def sampleIdleState : ChatState :=
  { store := sampleTempSession, isLoading := false, streamingMessage := ""
    selectedModel := "tinyllama:latest", apiMode := true
    editingMessageId := none, editingMessageText := "" }

def sampleMockEditState : ChatState :=
  { store := samplePersistedSession, isLoading := false, streamingMessage := ""
    selectedModel := "tinyllama:latest", apiMode := false
    editingMessageId := some "msg_1", editingMessageText := "What is 2+2?" }

/-- A concrete mock-mode (simulated streaming) state. -/
def sampleMockState : ChatState :=
  { store := samplePersistedSession, isLoading := false, streamingMessage := ""
    selectedModel := "tinyllama:latest", apiMode := false
    editingMessageId := none, editingMessageText := "" }

/-- Whether a trace entry is a `createMessage` call. -/
def ApiCall.isCreateMessage : ApiCall → Bool
  | ApiCall.createMessage _ _ _ _ => true
  | _ => false

/-- One of the backend calls a backend-mode send performs fails (throws). -/
def backendSendFails (api : Api) (temporary : Bool) : Prop :=
  (temporary = true ∧ api.createThreadRes = Except.error ())
    ∨ api.createMessageRes = Except.error ()
    ∨ api.getConversationRes = Except.error ()

/-- A backend-mode editing state targeting the branching message. -/
def sampleBackendEditState : ChatState :=
  { store := samplePersistedSession, isLoading := false, streamingMessage := ""
    selectedModel := "tinyllama:latest", apiMode := true
    editingMessageId := some "msg_1", editingMessageText := "What is 2+2?" }

/-- A mock-mode editing state targeting the legacy-variant message. -/
def sampleMockLegacyEditState : ChatState :=
  { store := samplePersistedSession, isLoading := false, streamingMessage := ""
    selectedModel := "tinyllama:latest", apiMode := false
    editingMessageId := some "msg_2", editingMessageText := "What is 2+2?" }

/-- A backend-mode editing state targeting the legacy-variant message. -/
def sampleBackendLegacyEditState : ChatState :=
  { store := samplePersistedSession, isLoading := false, streamingMessage := ""
    selectedModel := "tinyllama:latest", apiMode := true
    editingMessageId := some "msg_2", editingMessageText := "What is 2+2?" }

/-- A fresh edit used to exercise the append operation. -/
def sampleNewEdit : Edit :=
  { edit_id := "e2", model_name := "m0", timestamp := "t2"
    question := "What is 3+3?", answer := "4" }

/-! ### Helper lemmas -/

theorem runChunks_nil (st : ChatState) : runChunks st [] = st := rfl

theorem runChunks_cons (st : ChatState) (c : String) (cs : List String) :
    runChunks st (c :: cs) =
      runChunks { st with streamingMessage := st.streamingMessage ++ c } cs := rfl

theorem join_cons (c : String) (cs : List String) :
    String.join (c :: cs) = c ++ String.join cs := by
  apply String.ext
  simp [String.join_eq]

theorem str_append_assoc (a b c : String) : a ++ b ++ c = a ++ (b ++ c) := by
  apply String.ext
  simp

theorem runChunks_eq (chunks : List String) : ∀ st : ChatState,
    runChunks st chunks =
      { st with streamingMessage := st.streamingMessage ++ String.join chunks } := by
  induction chunks with
  | nil => intro st; rw [runChunks_nil]; simp [String.join_eq]
  | cons c cs ih =>
      intro st
      rw [runChunks_cons, ih, join_cons, ← str_append_assoc]

theorem modifyIdx_getElem_eq (f : Message → Message) :
    ∀ (l : List Message) (i : Nat) (m : Message), l[i]? = some m →
      (modifyIdx f i l)[i]? = some (f m)
  | [], i, m => by simp
  | a :: l, 0, m => by
      intro h
      simp at h
      simp [modifyIdx, h]
  | a :: l, i + 1, m => by
      intro h
      simp at h
      simpa [modifyIdx] using modifyIdx_getElem_eq f l i m h

theorem modifyIdx_getElem_ne (f : Message → Message) :
    ∀ (l : List Message) (i j : Nat), j ≠ i → (modifyIdx f i l)[j]? = l[j]?
  | [], _, _, _ => by simp [modifyIdx]
  | a :: l, 0, 0, h => absurd rfl h
  | a :: l, 0, j + 1, _ => by simp [modifyIdx]
  | a :: l, i + 1, 0, _ => by simp [modifyIdx]
  | a :: l, i + 1, j + 1, h => by
      have := modifyIdx_getElem_ne f l i j (fun hji => h (by rw [hji]))
      simpa [modifyIdx] using this

theorem find?_findIdx? (p : Message → Bool) :
    ∀ (l : List Message) (m : Message), l.find? p = some m →
      ∃ i, l.findIdx? p = some i ∧ l[i]? = some m ∧ p m = true
  | [], m => by simp
  | a :: l, m => by
      intro h
      by_cases hp : p a
      · refine ⟨0, ?_, ?_, ?_⟩
        · simp [List.findIdx?_cons, hp]
        · simp [List.find?_cons, hp] at h
          simp [h]
        · simp [List.find?_cons, hp] at h
          rw [← h]; exact hp
      · rw [List.find?_cons_of_neg _ (by simpa using hp)] at h
        obtain ⟨i, h1, h2, h3⟩ := find?_findIdx? p l m h
        exact ⟨i + 1, by simp [List.findIdx?_cons, hp, h1], by simpa using h2, h3⟩

/-! ### Claims -/

/-- C6: a `send` whose question text is empty or whitespace-only, or which is
issued while an exchange is already in flight (`isLoading`), is a no-op: the
whole component state (message list included) is returned unchanged and no
backend call is issued. -/
theorem send_rejected_noop (api : Api) (st : ChatState) (message : String)
    (chunks : List String) (outcome : StreamOutcome) (ts : String)
    (h : jsTrim message = "" ∨ st.isLoading = true) :
    handleSendMessage api st message chunks outcome ts = (st, []) := by
  unfold handleSendMessage
  rcases h with h | h
  · rw [if_pos (Or.inl h)]
  · rw [if_pos (Or.inr (by simp [h]))]

/-- Witness for C6: a whitespace-only question on a concrete idle state. -/
theorem send_rejected_noop_witness :
    (jsTrim " \t " = "" ∨ sampleIdleState.isLoading = true) ∧
      handleSendMessage sampleApiOk sampleIdleState " \t " [] StreamOutcome.errored "t0" =
        (sampleIdleState, []) :=
  ⟨Or.inl (by decide),
    send_rejected_noop sampleApiOk sampleIdleState " \t " [] StreamOutcome.errored "t0"
      (Or.inl (by decide))⟩

/-- C7: for every finite chunk sequence delivered in emission order through
the chunk callback, the accumulated partial text is the left-to-right
concatenation of the chunks; in particular the sequence
["Hel", "lo, ", "world"] starting from the cleared buffer accumulates to
"Hello, world". -/
theorem chunks_accumulate_in_order (st : ChatState) (chunks : List String) :
    (runChunks st chunks).streamingMessage =
        st.streamingMessage ++ String.join chunks ∧
      (runChunks sampleIdleState ["Hel", "lo, ", "world"]).streamingMessage =
        "Hello, world" := by
  constructor
  · rw [runChunks_eq]
  · decide

theorem addMessage_id (s : Session) (t : String) (u : Bool) (m : Option String) :
    (addMessage s t u m).id = s.id := rfl

theorem addMessage_isTemporary (s : Session) (t : String) (u : Bool) (m : Option String) :
    (addMessage s t u m).isTemporary = s.isTemporary := rfl

/-- C1: in backend mode, a send on a temporary thread calls `createThread`
exactly once and — when that call succeeds — replaces the session id with the
backend-assigned id, clears the temporary flag, and addresses every
subsequent `createMessage` / `getConversation` call to the new id; a send on
an already-persisted thread never calls `createThread` and leaves the id
(and the cleared temporary flag) unchanged. -/
theorem send_promotes_identifier_once (api : Api) (st : ChatState)
    (message : String) (chunks : List String) (outcome : StreamOutcome)
    (ts : String) (st' : ChatState) (calls : List ApiCall)
    (hmode : st.apiMode = true) (hload : st.isLoading = false)
    (htrim : ¬ jsTrim message = "")
    (hrun : handleSendMessage api st message chunks outcome ts = (st', calls)) :
    (st.store.isTemporary = true →
        calls.count ApiCall.createThread = 1 ∧
        ∀ tid, api.createThreadRes = Except.ok tid →
          st'.store.id = tid ∧ st'.store.isTemporary = false ∧
          (∀ t q a m, ApiCall.createMessage t q a m ∈ calls → t = tid) ∧
          (∀ t, ApiCall.getConversation t ∈ calls → t = tid)) ∧
      (st.store.isTemporary = false →
        calls.count ApiCall.createThread = 0 ∧
        st'.store.id = st.store.id ∧ st'.store.isTemporary = false) := by
  unfold handleSendMessage at hrun
  rw [if_neg (by simp [htrim, hload])] at hrun
  rw [if_pos hmode] at hrun
  unfold backendAttempt at hrun
  constructor
  · intro hT
    rw [if_pos hT] at hrun
    cases hct : api.createThreadRes with
    | error e =>
        simp only [hct] at hrun
        injection hrun with h1 h2
        subst h1; subst h2
        refine ⟨rfl, fun tid htid => absurd htid (by simp)⟩
    | ok tid =>
        simp only [hct] at hrun
        unfold backendAfterThread at hrun
        cases hcm : api.createMessageRes with
        | error e =>
            simp only [hcm] at hrun
            injection hrun with h1 h2
            subst h1; subst h2
            refine ⟨rfl, fun tid' htid => ?_⟩
            injection htid with htid'
            subst htid'
            refine ⟨?_, ?_, ?_, ?_⟩
            · simp [addMessage, convertTemporarySession, hT]
            · simp [addMessage, convertTemporarySession, hT]
            · intro t q a m hmem
              simp at hmem
              exact hmem.1
            · intro t hmem
              simp at hmem
        | ok u =>
            cases hgc : api.getConversationRes with
            | error e =>
                simp only [hcm, hgc] at hrun
                injection hrun with h1 h2
                subst h1; subst h2
                refine ⟨rfl, fun tid' htid => ?_⟩
                injection htid with htid'
                subst htid'
                refine ⟨?_, ?_, ?_, ?_⟩
                · simp [addMessage, convertTemporarySession, hT]
                · simp [addMessage, convertTemporarySession, hT]
                · intro t q a m hmem
                  simp at hmem
                  exact hmem.1
                · intro t hmem
                  simp at hmem
                  exact hmem
            | ok conv =>
                simp only [hcm, hgc] at hrun
                injection hrun with h1 h2
                subst h1; subst h2
                refine ⟨rfl, fun tid' htid => ?_⟩
                injection htid with htid'
                subst htid'
                refine ⟨?_, ?_, ?_, ?_⟩
                · simp [updateSessionModel, addMessage, convertTemporarySession, hT]
                · simp [updateSessionModel, addMessage, convertTemporarySession, hT]
                · intro t q a m hmem
                  simp at hmem
                  exact hmem.1
                · intro t hmem
                  simp at hmem
                  exact hmem
  · intro hT
    rw [if_neg (by simp [hT])] at hrun
    unfold backendAfterThread at hrun
    cases hcm : api.createMessageRes with
    | error e =>
        simp only [hcm] at hrun
        injection hrun with h1 h2
        subst h1; subst h2
        exact ⟨rfl, rfl, hT⟩
    | ok u =>
        cases hgc : api.getConversationRes with
        | error e =>
            simp only [hcm, hgc] at hrun
            injection hrun with h1 h2
            subst h1; subst h2
            exact ⟨rfl, rfl, hT⟩
        | ok conv =>
            simp only [hcm, hgc] at hrun
            injection hrun with h1 h2
            subst h1; subst h2
            refine ⟨rfl, ?_, ?_⟩
            · simp [updateSessionModel, addMessage]
            · simp [updateSessionModel, addMessage, hT]

/-- Witness for C1: a concrete backend-mode send on a temporary thread with
the backend assigning id "backend_tid_1". -/
theorem send_promotes_identifier_once_witness :
    sampleIdleState.apiMode = true ∧ sampleIdleState.isLoading = false ∧
      ¬ jsTrim "Hi" = "" ∧ sampleIdleState.store.isTemporary = true ∧
      (handleSendMessage sampleApiOk sampleIdleState "Hi" [] StreamOutcome.errored
          "t0").2.count ApiCall.createThread = 1 ∧
      (handleSendMessage sampleApiOk sampleIdleState "Hi" [] StreamOutcome.errored
          "t0").1.store.id = "backend_tid_1" ∧
      (handleSendMessage sampleApiOk sampleIdleState "Hi" [] StreamOutcome.errored
          "t0").1.store.isTemporary = false := by
  have h := send_promotes_identifier_once sampleApiOk sampleIdleState "Hi" []
    StreamOutcome.errored "t0"
    (handleSendMessage sampleApiOk sampleIdleState "Hi" [] StreamOutcome.errored "t0").1
    (handleSendMessage sampleApiOk sampleIdleState "Hi" [] StreamOutcome.errored "t0").2
    rfl rfl (by decide) rfl
  refine ⟨rfl, rfl, by decide, rfl, (h.1 rfl).1, ?_, ?_⟩
  · exact ((h.1 rfl).2 "backend_tid_1" rfl).1
  · exact ((h.1 rfl).2 "backend_tid_1" rfl).2.1



/-- C2: in either dispatch mode, when the backend call or the streaming
simulator fails, exactly one fixed fallback assistant message is appended
after the user's message, the loading flag and the accumulated partial
stream text are cleared, and the exchange ends idle. -/
theorem send_failure_recovers (api : Api) (st : ChatState) (message : String)
    (chunks : List String) (outcome : StreamOutcome) (ts : String)
    (st' : ChatState) (calls : List ApiCall)
    (hload : st.isLoading = false) (htrim : ¬ jsTrim message = "")
    (hfail : if st.apiMode then backendSendFails api st.store.isTemporary
             else outcome = StreamOutcome.errored)
    (hrun : handleSendMessage api st message chunks outcome ts = (st', calls)) :
    st'.isLoading = false ∧ st'.streamingMessage = "" ∧
      st'.store.messages = st.store.messages ++
        [localUserMessage message,
         localAssistantMessage fallbackText (some st.selectedModel)] := by
  unfold handleSendMessage at hrun
  rw [if_neg (by simp [htrim, hload])] at hrun
  cases hm : st.apiMode with
  | false =>
      rw [if_neg (by simp [hm])] at hrun
      rw [hm] at hfail
      simp only [if_neg Bool.false_ne_true] at hfail
      subst hfail
      rw [runChunks_eq] at hrun
      injection hrun with h1 h2
      subst h1
      simp [addMessage]
  | true =>
      rw [if_pos hm] at hrun
      rw [hm] at hfail
      rw [if_pos (by trivial)] at hfail
      unfold backendAttempt at hrun
      cases hT : st.store.isTemporary with
      | true =>
          rw [if_pos hT] at hrun
          cases hct : api.createThreadRes with
          | error e =>
              simp only [hct] at hrun
              injection hrun with h1 h2
              subst h1
              simp [addMessage]
          | ok tid =>
              simp only [hct] at hrun
              unfold backendAfterThread at hrun
              cases hcm : api.createMessageRes with
              | error e =>
                  simp only [hcm] at hrun
                  injection hrun with h1 h2
                  subst h1
                  simp [addMessage, convertTemporarySession, hT]
              | ok u =>
                  cases hgc : api.getConversationRes with
                  | error e =>
                      simp only [hcm, hgc] at hrun
                      injection hrun with h1 h2
                      subst h1
                      simp [addMessage, convertTemporarySession, hT]
                  | ok conv =>
                      exfalso
                      rcases hfail with ⟨_, hc⟩ | hc | hc
                      · rw [hct] at hc; cases hc
                      · rw [hcm] at hc; cases hc
                      · rw [hgc] at hc; cases hc
      | false =>
          rw [if_neg (by simp [hT])] at hrun
          unfold backendAfterThread at hrun
          cases hcm : api.createMessageRes with
          | error e =>
              simp only [hcm] at hrun
              injection hrun with h1 h2
              subst h1
              simp [addMessage]
          | ok u =>
              cases hgc : api.getConversationRes with
              | error e =>
                  simp only [hcm, hgc] at hrun
                  injection hrun with h1 h2
                  subst h1
                  simp [addMessage]
              | ok conv =>
                  exfalso
                  rcases hfail with ⟨hc, _⟩ | hc | hc
                  · rw [hT] at hc; cases hc
                  · rw [hcm] at hc; cases hc
                  · rw [hgc] at hc; cases hc



/-- Witness for C2: the simulator fails after two chunks; the state ends idle
with the fallback message appended and no partial text. -/
theorem send_failure_recovers_witness :
    sampleMockState.isLoading = false ∧ ¬ jsTrim "Hi" = "" ∧
      (if sampleMockState.apiMode then
          backendSendFails sampleApiDown sampleMockState.store.isTemporary
        else StreamOutcome.errored = StreamOutcome.errored) ∧
      ((handleSendMessage sampleApiDown sampleMockState "Hi" ["He", "ll"]
            StreamOutcome.errored "t0").1.isLoading = false ∧
        (handleSendMessage sampleApiDown sampleMockState "Hi" ["He", "ll"]
            StreamOutcome.errored "t0").1.streamingMessage = "" ∧
        (handleSendMessage sampleApiDown sampleMockState "Hi" ["He", "ll"]
            StreamOutcome.errored "t0").1.store.messages =
          sampleMockState.store.messages ++
            [localUserMessage "Hi",
             localAssistantMessage fallbackText (some sampleMockState.selectedModel)]) := by
  refine ⟨rfl, by decide, by rw [if_neg (by decide)], ?_⟩
  exact send_failure_recovers sampleApiDown sampleMockState "Hi" ["He", "ll"]
    StreamOutcome.errored "t0"
    (handleSendMessage sampleApiDown sampleMockState "Hi" ["He", "ll"]
      StreamOutcome.errored "t0").1
    (handleSendMessage sampleApiDown sampleMockState "Hi" ["He", "ll"]
      StreamOutcome.errored "t0").2
    rfl (by decide) (by rw [if_neg (by decide)]) rfl



/-- C3: a successful backend-mode send issues exactly one `createMessage`
call, carrying the user's question text, and then wholesale replaces the
thread's message list with `transformConversation` applied to the freshly
fetched `getConversation` result, discarding the locally appended optimistic
message. -/
theorem send_success_uses_backend_truth (api : Api) (st : ChatState)
    (message : String) (chunks : List String) (outcome : StreamOutcome)
    (ts : String) (st' : ChatState) (calls : List ApiCall)
    (tid : String) (conv : ConvDTO)
    (hmode : st.apiMode = true) (hload : st.isLoading = false)
    (htrim : ¬ jsTrim message = "")
    (hct : st.store.isTemporary = true → api.createThreadRes = Except.ok tid)
    (hctF : st.store.isTemporary = false → tid = st.store.id)
    (hcm : api.createMessageRes = Except.ok ())
    (hgc : api.getConversationRes = Except.ok conv)
    (hrun : handleSendMessage api st message chunks outcome ts = (st', calls)) :
    calls.filter ApiCall.isCreateMessage =
        [ApiCall.createMessage tid message
          (simulatedResponse message st.selectedModel) st.selectedModel] ∧
      st'.store.messages = api.transformConversation conv ∧
      st'.isLoading = false := by
  unfold handleSendMessage at hrun
  rw [if_neg (by simp [htrim, hload])] at hrun
  rw [if_pos hmode] at hrun
  unfold backendAttempt at hrun
  cases hT : st.store.isTemporary with
  | true =>
      rw [if_pos hT] at hrun
      simp only [hct hT] at hrun
      unfold backendAfterThread at hrun
      simp only [hcm, hgc] at hrun
      injection hrun with h1 h2
      subst h1; subst h2
      refine ⟨rfl, ?_, rfl⟩
      simp [updateSessionModel, convertTemporarySession, addMessage, hT]
  | false =>
      rw [if_neg (by simp [hT])] at hrun
      rw [hctF hT]
      unfold backendAfterThread at hrun
      simp only [hcm, hgc] at hrun
      injection hrun with h1 h2
      subst h1; subst h2
      refine ⟨rfl, ?_, rfl⟩
      simp [updateSessionModel, addMessage]

/-- Witness for C3: a concrete successful backend-mode send on a temporary
thread. -/
theorem send_success_uses_backend_truth_witness :
    sampleIdleState.apiMode = true ∧ sampleIdleState.isLoading = false ∧
      ¬ jsTrim "Hi" = "" ∧
      sampleApiOk.createMessageRes = Except.ok () ∧
      sampleApiOk.getConversationRes = Except.ok ⟨0⟩ ∧
      ((handleSendMessage sampleApiOk sampleIdleState "Hi" [] StreamOutcome.errored
            "t0").2.filter ApiCall.isCreateMessage =
          [ApiCall.createMessage "backend_tid_1" "Hi"
            (simulatedResponse "Hi" sampleIdleState.selectedModel)
            sampleIdleState.selectedModel] ∧
        (handleSendMessage sampleApiOk sampleIdleState "Hi" [] StreamOutcome.errored
            "t0").1.store.messages = sampleApiOk.transformConversation ⟨0⟩ ∧
        (handleSendMessage sampleApiOk sampleIdleState "Hi" [] StreamOutcome.errored
            "t0").1.isLoading = false) := by
  refine ⟨rfl, rfl, by decide, rfl, rfl, ?_⟩
  exact send_success_uses_backend_truth sampleApiOk sampleIdleState "Hi" []
    StreamOutcome.errored "t0"
    (handleSendMessage sampleApiOk sampleIdleState "Hi" [] StreamOutcome.errored "t0").1
    (handleSendMessage sampleApiOk sampleIdleState "Hi" [] StreamOutcome.errored "t0").2
    "backend_tid_1" ⟨0⟩ rfl rfl (by decide) (fun _ => rfl)
    (fun h => by cases h) rfl rfl rfl

/-- C4: a mock-mode submitEdit on an edit-branching message appends exactly
one new edit to that message: the new edit's question is the submitted text
and its answer is the answer of the previously latest edit (reused, not
regenerated); all other fields of the message are kept. -/
theorem submitEdit_mock_appends_edit (api : Api) (st : ChatState)
    (newText ts : String) (st' : ChatState) (calls : List ApiCall)
    (mid : String) (msg : Message) (es : List Edit) (latest : Edit)
    (hmode : st.apiMode = false)
    (hedit : st.editingMessageId = some mid)
    (htrim : ¬ jsTrim newText = "")
    (hfind : st.store.messages.find? (fun m => m.id == mid) = some msg)
    (hedits : msg.edits = some es)
    (hlast : es.getLast? = some latest)
    (hrun : handleSubmitEdit api st newText ts = (st', calls)) :
    ∃ i, st.store.messages.findIdx? (fun m => m.id == mid) = some i ∧
      st'.store.messages[i]? = some { msg with edits := some (es ++
        [{ edit_id := "mock_edit_" ++ toString (es.length + 1)
           model_name := st.selectedModel
           timestamp := ts
           question := newText
           answer := latest.answer }]) } := by
  obtain ⟨i, hidx, hget, hp⟩ := find?_findIdx? _ _ _ hfind
  unfold handleSubmitEdit at hrun
  simp only [hedit] at hrun
  rw [if_neg htrim] at hrun
  simp only [hfind] at hrun
  rw [if_neg (by simp [hmode])] at hrun
  simp only [hedits, hlast, hidx] at hrun
  injection hrun with h1 h2
  subst h1
  refine ⟨i, hidx, ?_⟩
  have hmod := modifyIdx_getElem_eq
    (fun m => appendEditToMessage m
      { edit_id := "mock_edit_" ++ toString (es.length + 1)
        model_name := st.selectedModel
        timestamp := ts
        question := newText
        answer := latest.answer })
    st.store.messages i msg hget
  simp only [updateSessionModel, if_pos rfl]
  rw [if_pos trivial]
  simp only [hmod]
  simp [appendEditToMessage, hedits]

/-- Witness for C4: the spec scenario — editing the branching message's
question "What is 2+2?" to "What is 3+3?" in simulated mode. -/
theorem submitEdit_mock_appends_edit_witness :
    sampleMockEditState.apiMode = false ∧
      sampleMockEditState.editingMessageId = some "msg_1" ∧
      ¬ jsTrim "What is 3+3?" = "" ∧
      sampleMockEditState.store.messages.find? (fun m => m.id == "msg_1") =
        some sampleBranchMessage ∧
      sampleBranchMessage.edits = some [sampleBranchEdit] ∧
      [sampleBranchEdit].getLast? = some sampleBranchEdit ∧
      ∃ i, sampleMockEditState.store.messages.findIdx?
          (fun m => m.id == "msg_1") = some i ∧
        (handleSubmitEdit sampleApiOk sampleMockEditState "What is 3+3?"
            "t1").1.store.messages[i]? =
          some { sampleBranchMessage with edits := some ([sampleBranchEdit] ++
            [{ edit_id := "mock_edit_" ++ toString (([sampleBranchEdit] : List Edit).length + 1)
               model_name := sampleMockEditState.selectedModel
               timestamp := "t1"
               question := "What is 3+3?"
               answer := sampleBranchEdit.answer }]) } := by
  refine ⟨rfl, rfl, by decide, by decide, rfl, rfl, ?_⟩
  exact submitEdit_mock_appends_edit sampleApiOk sampleMockEditState "What is 3+3?" "t1"
    (handleSubmitEdit sampleApiOk sampleMockEditState "What is 3+3?" "t1").1
    (handleSubmitEdit sampleApiOk sampleMockEditState "What is 3+3?" "t1").2
    "msg_1" sampleBranchMessage [sampleBranchEdit] sampleBranchEdit
    rfl rfl (by decide) (by decide) rfl rfl rfl

/-- C9: when the backend call of a submitEdit throws, no fallback message is
inserted and the whole session store (message list included) is unchanged;
the loading flag is cleared, but the editing state — the id and text of the
message being edited — is NOT cleared: the editing session stays active. -/
theorem submitEdit_backend_failure_keeps_editing (api : Api) (st : ChatState)
    (newText ts : String) (st' : ChatState) (calls : List ApiCall)
    (mid : String) (msg : Message)
    (hmode : st.apiMode = true)
    (hedit : st.editingMessageId = some mid)
    (htrim : ¬ jsTrim newText = "")
    (hfind : st.store.messages.find? (fun m => m.id == mid) = some msg)
    (hbranch : msg.edits.isSome = true)
    (hfail : api.createMessageEditRes = Except.error () ∨
      api.getConversationRes = Except.error ())
    (hrun : handleSubmitEdit api st newText ts = (st', calls)) :
    st'.store = st.store ∧ st'.isLoading = false ∧
      st'.editingMessageId = some mid ∧
      st'.editingMessageText = st.editingMessageText := by
  obtain ⟨es, hedits⟩ := Option.isSome_iff_exists.mp hbranch
  unfold handleSubmitEdit at hrun
  simp only [hedit] at hrun
  rw [if_neg htrim] at hrun
  simp only [hfind] at hrun
  rw [if_pos hmode] at hrun
  simp only [hedits] at hrun
  cases hce : api.createMessageEditRes with
  | error e =>
      simp only [hce] at hrun
      injection hrun with h1 h2
      subst h1
      exact ⟨rfl, rfl, rfl, rfl⟩
  | ok u =>
      cases hgc : api.getConversationRes with
      | error e =>
          simp only [hce, hgc] at hrun
          injection hrun with h1 h2
          subst h1
          exact ⟨rfl, rfl, rfl, rfl⟩
      | ok conv =>
          exfalso
          rcases hfail with hc | hc
          · rw [hce] at hc; cases hc
          · rw [hgc] at hc; cases hc



/-- Witness for C9: a concrete backend-mode submitEdit whose
`createMessageEdit` call fails. -/
theorem submitEdit_backend_failure_keeps_editing_witness :
    sampleBackendEditState.apiMode = true ∧
      sampleBackendEditState.editingMessageId = some "msg_1" ∧
      ¬ jsTrim "What is 3+3?" = "" ∧
      sampleBackendEditState.store.messages.find? (fun m => m.id == "msg_1") =
        some sampleBranchMessage ∧
      sampleBranchMessage.edits.isSome = true ∧
      (sampleApiDown.createMessageEditRes = Except.error () ∨
        sampleApiDown.getConversationRes = Except.error ()) ∧
      ((handleSubmitEdit sampleApiDown sampleBackendEditState "What is 3+3?"
            "t1").1.store = sampleBackendEditState.store ∧
        (handleSubmitEdit sampleApiDown sampleBackendEditState "What is 3+3?"
            "t1").1.isLoading = false ∧
        (handleSubmitEdit sampleApiDown sampleBackendEditState "What is 3+3?"
            "t1").1.editingMessageId = some "msg_1" ∧
        (handleSubmitEdit sampleApiDown sampleBackendEditState "What is 3+3?"
            "t1").1.editingMessageText = sampleBackendEditState.editingMessageText) := by
  refine ⟨rfl, rfl, by decide, by decide, rfl, Or.inl rfl, ?_⟩
  exact submitEdit_backend_failure_keeps_editing sampleApiDown sampleBackendEditState
    "What is 3+3?" "t1"
    (handleSubmitEdit sampleApiDown sampleBackendEditState "What is 3+3?" "t1").1
    (handleSubmitEdit sampleApiDown sampleBackendEditState "What is 3+3?" "t1").2
    "msg_1" sampleBranchMessage rfl rfl (by decide) (by decide) rfl (Or.inl rfl) rfl

/-- C10: a mock-mode submitEdit on a legacy-variant message replaces only the
question field of that message; its answer, id and every other field keep
their values, and every other message of the thread is unchanged. -/
theorem submitEdit_mock_legacy_question_only (api : Api) (st : ChatState)
    (newText ts : String) (st' : ChatState) (calls : List ApiCall)
    (mid : String) (msg : Message)
    (hmode : st.apiMode = false)
    (hedit : st.editingMessageId = some mid)
    (htrim : ¬ jsTrim newText = "")
    (hfind : st.store.messages.find? (fun m => m.id == mid) = some msg)
    (hlegacy : msg.edits = none)
    (hrun : handleSubmitEdit api st newText ts = (st', calls)) :
    ∃ i, st.store.messages.findIdx? (fun m => m.id == mid) = some i ∧
      st'.store.messages[i]? = some { msg with question := some newText } ∧
      (∀ j, j ≠ i → st'.store.messages[j]? = st.store.messages[j]?) := by
  obtain ⟨i, hidx, hget, hp⟩ := find?_findIdx? _ _ _ hfind
  unfold handleSubmitEdit at hrun
  simp only [hedit] at hrun
  rw [if_neg htrim] at hrun
  simp only [hfind] at hrun
  rw [if_neg (by simp [hmode])] at hrun
  simp only [hlegacy, hidx] at hrun
  injection hrun with h1 h2
  subst h1
  refine ⟨i, hidx, ?_, ?_⟩
  · have hmod := modifyIdx_getElem_eq
      (fun m => { m with question := some newText }) st.store.messages i msg hget
    simp only [updateSessionModel, if_pos rfl]
    rw [if_pos trivial]
    simp only [hmod]
  · intro j hj
    have hmod := modifyIdx_getElem_ne
      (fun m => { m with question := some newText }) st.store.messages i j hj
    simp only [updateSessionModel, if_pos rfl]
    rw [if_pos trivial]
    simp only [hmod]





/-- Witness for C10: a concrete mock-mode edit of the legacy message. -/
theorem submitEdit_mock_legacy_question_only_witness :
    sampleMockLegacyEditState.apiMode = false ∧
      sampleMockLegacyEditState.editingMessageId = some "msg_2" ∧
      ¬ jsTrim "What is 3+3?" = "" ∧
      sampleMockLegacyEditState.store.messages.find? (fun m => m.id == "msg_2") =
        some sampleLegacyMessage ∧
      sampleLegacyMessage.edits = none ∧
      ∃ i, sampleMockLegacyEditState.store.messages.findIdx?
          (fun m => m.id == "msg_2") = some i ∧
        (handleSubmitEdit sampleApiOk sampleMockLegacyEditState "What is 3+3?"
            "t1").1.store.messages[i]? =
          some { sampleLegacyMessage with question := some "What is 3+3?" } ∧
        (∀ j, j ≠ i →
          (handleSubmitEdit sampleApiOk sampleMockLegacyEditState "What is 3+3?"
              "t1").1.store.messages[j]? =
            sampleMockLegacyEditState.store.messages[j]?) := by
  refine ⟨rfl, rfl, by decide, by decide, rfl, ?_⟩
  exact submitEdit_mock_legacy_question_only sampleApiOk sampleMockLegacyEditState
    "What is 3+3?" "t1"
    (handleSubmitEdit sampleApiOk sampleMockLegacyEditState "What is 3+3?" "t1").1
    (handleSubmitEdit sampleApiOk sampleMockLegacyEditState "What is 3+3?" "t1").2
    "msg_2" sampleLegacyMessage rfl rfl (by decide) (by decide) rfl rfl

/-- Counterexample to C5 as stated: in backend dispatch mode a submitEdit on
a legacy-variant message performs no field update at all — the message list
comes back unchanged, not updated with the new question as the claim
demands for every dispatch mode. -/
theorem submitEdit_legacy_backend_counterexample :
    sampleBackendLegacyEditState.apiMode = true ∧
      (handleSubmitEdit sampleApiOk sampleBackendLegacyEditState "What is 3+3?"
          "t1").1.store.messages = sampleBackendLegacyEditState.store.messages ∧
      ¬ (handleSubmitEdit sampleApiOk sampleBackendLegacyEditState "What is 3+3?"
            "t1").1.store.messages =
          modifyIdx (fun m => { m with question := some "What is 3+3?" }) 1
            sampleBackendLegacyEditState.store.messages := by
  refine ⟨rfl, by decide, by decide⟩

/-- C5 amended: a submitEdit on a legacy-variant message performs the direct
question-field update only in mock/simulated mode; in backend mode it leaves
the message list entirely unchanged (the edit is dropped); in both modes the
editing state is cleared and loading ends false. -/
theorem submitEdit_legacy_by_mode (api : Api) (st : ChatState)
    (newText ts : String) (st' : ChatState) (calls : List ApiCall)
    (mid : String) (msg : Message)
    (hedit : st.editingMessageId = some mid)
    (htrim : ¬ jsTrim newText = "")
    (hfind : st.store.messages.find? (fun m => m.id == mid) = some msg)
    (hlegacy : msg.edits = none)
    (hrun : handleSubmitEdit api st newText ts = (st', calls)) :
    (st.apiMode = false →
        ∃ i, st.store.messages.findIdx? (fun m => m.id == mid) = some i ∧
          st'.store.messages =
            modifyIdx (fun m => { m with question := some newText }) i
              st.store.messages) ∧
      (st.apiMode = true → st'.store.messages = st.store.messages) ∧
      st'.editingMessageId = none ∧ st'.isLoading = false := by
  obtain ⟨i, hidx, hget, hp⟩ := find?_findIdx? _ _ _ hfind
  unfold handleSubmitEdit at hrun
  simp only [hedit] at hrun
  rw [if_neg htrim] at hrun
  simp only [hfind] at hrun
  cases hm : st.apiMode with
  | true =>
      rw [if_pos hm] at hrun
      simp only [hlegacy] at hrun
      injection hrun with h1 h2
      subst h1
      refine ⟨?_, fun _ => rfl, rfl, rfl⟩
      intro h
      simp [hm] at h
  | false =>
      rw [if_neg (by simp [hm])] at hrun
      simp only [hlegacy, hidx] at hrun
      injection hrun with h1 h2
      subst h1
      refine ⟨fun _ => ⟨i, hidx, ?_⟩, ?_, rfl, rfl⟩
      · simp only [updateSessionModel, if_pos rfl]
        rw [if_pos trivial]
      · intro h
        simp [hm] at h

/-- Witness for the amended C5: the same legacy edit in mock mode does update
the question in place. -/
theorem submitEdit_legacy_by_mode_witness :
    sampleMockLegacyEditState.editingMessageId = some "msg_2" ∧
      ¬ jsTrim "What is 3+3?" = "" ∧
      sampleMockLegacyEditState.store.messages.find? (fun m => m.id == "msg_2") =
        some sampleLegacyMessage ∧
      sampleLegacyMessage.edits = none ∧
      ((sampleMockLegacyEditState.apiMode = false →
          ∃ i, sampleMockLegacyEditState.store.messages.findIdx?
              (fun m => m.id == "msg_2") = some i ∧
            (handleSubmitEdit sampleApiOk sampleMockLegacyEditState "What is 3+3?"
                "t1").1.store.messages =
              modifyIdx (fun m => { m with question := some "What is 3+3?" }) i
                sampleMockLegacyEditState.store.messages) ∧
        (sampleMockLegacyEditState.apiMode = true →
          (handleSubmitEdit sampleApiOk sampleMockLegacyEditState "What is 3+3?"
              "t1").1.store.messages = sampleMockLegacyEditState.store.messages) ∧
        (handleSubmitEdit sampleApiOk sampleMockLegacyEditState "What is 3+3?"
            "t1").1.editingMessageId = none ∧
        (handleSubmitEdit sampleApiOk sampleMockLegacyEditState "What is 3+3?"
            "t1").1.isLoading = false) := by
  refine ⟨rfl, by decide, by decide, rfl, ?_⟩
  exact submitEdit_legacy_by_mode sampleApiOk sampleMockLegacyEditState
    "What is 3+3?" "t1"
    (handleSubmitEdit sampleApiOk sampleMockLegacyEditState "What is 3+3?" "t1").1
    (handleSubmitEdit sampleApiOk sampleMockLegacyEditState "What is 3+3?" "t1").2
    "msg_2" sampleLegacyMessage rfl (by decide) (by decide) rfl rfl



/-- C8: appending an edit to an edit-branching message produces a new message
value whose edits list is the old list with exactly one new element at the
end — existing entries neither removed nor reordered, every other field kept,
and the latest edit sitting at index length-1; substituting the new value at
the message's index leaves every other entry of the message list unchanged,
and the original list (hence the original message value) is untouched. -/
theorem appendEdit_copy_on_write (ms : List Message) (i : Nat) (m : Message)
    (es : List Edit) (e : Edit)
    (hm : ms[i]? = some m) (hes : m.edits = some es) :
    (appendEditToMessage m e).edits = some (es ++ [e]) ∧
      (appendEditToMessage m e).id = m.id ∧
      (appendEditToMessage m e).question = m.question ∧
      (appendEditToMessage m e).answer = m.answer ∧
      (appendEditToMessage m e).model_name = m.model_name ∧
      (es ++ [e]).length = es.length + 1 ∧
      (∀ j, j < es.length → (es ++ [e])[j]? = es[j]?) ∧
      (es ++ [e])[(es ++ [e]).length - 1]? = some e ∧
      (modifyIdx (fun x => appendEditToMessage x e) i ms)[i]? =
        some (appendEditToMessage m e) ∧
      (∀ j, j ≠ i →
        (modifyIdx (fun x => appendEditToMessage x e) i ms)[j]? = ms[j]?) ∧
      ms[i]? = some m := by
  refine ⟨by simp [appendEditToMessage, hes], rfl, rfl, rfl, rfl, by simp, ?_, ?_,
    modifyIdx_getElem_eq _ ms i m hm,
    fun j hj => modifyIdx_getElem_ne _ ms i j hj, hm⟩
  · intro j hj
    rw [List.getElem?_append_left hj]
  · simp

/-- Witness for C8 on a concrete two-message list. -/
theorem appendEdit_copy_on_write_witness :
    (([sampleBranchMessage, sampleLegacyMessage] : List Message)[0]? =
        some sampleBranchMessage) ∧
      sampleBranchMessage.edits = some [sampleBranchEdit] ∧
      (appendEditToMessage sampleBranchMessage sampleNewEdit).edits =
        some ([sampleBranchEdit] ++ [sampleNewEdit]) ∧
      (modifyIdx (fun x => appendEditToMessage x sampleNewEdit) 0
          [sampleBranchMessage, sampleLegacyMessage])[1]? =
        some sampleLegacyMessage := by
  refine ⟨by decide, rfl, ?_, ?_⟩
  · exact (appendEdit_copy_on_write [sampleBranchMessage, sampleLegacyMessage] 0
      sampleBranchMessage [sampleBranchEdit] sampleNewEdit (by decide) rfl).1
  · exact (appendEdit_copy_on_write [sampleBranchMessage, sampleLegacyMessage] 0
      sampleBranchMessage [sampleBranchEdit] sampleNewEdit (by decide)
      rfl).2.2.2.2.2.2.2.2.2.1 1 (by decide)
